import Mathlib

/-!
# Watchdog supervision (src/watchdog/watchdog.c)

A shallow embedding of the process supervisor, the lifecheck process and the
setuid check of `watchdog.c`, followed by the properties established for them.

Modelling conventions

* `pid_t` and `int` values are mathematical integers; the only arithmetic the
  file performs on them is the product `wd_interval * 10`, which is wrapped to
  32 bits (`int_mul`).
* The static pid tables are the fields of `Sup`; the two arrays are maps from a
  slot index to the pid stored there.  The code only accesses slots below
  `num_hb_if`, and the development takes `num_hb_if` to be within the size
  `WD_MAX_IF_NUM` of the arrays, so that every access is in bounds.
* Calls that leave the file (`kill`, `wd_init`, the process factories, `fork`)
  are appended to a trace, oldest first.  What a process-creating call returns
  is read from an oracle indexed by the number of calls made so far.
* `ereport` at `ERROR` or `FATAL` does not return to its caller: it is an
  outcome of its own.  `ereport` at `DEBUG1`, `LOG` and `NOTICE` only writes
  to the log and is left out.
-/

namespace Watchdog

/-! ## Data model -/

/-- Process identifiers (`pid_t`). -/
abbrev pid_t := Int

/-- C strings: the bytes that precede the terminating NUL. -/
abbrev CStr := List Char

/-- Constants that `watchdog.c` takes from headers outside the file
(`watchdog/watchdog.h`, `pool.h`).  They are parameters of the development. -/
structure Header where
  MODE_HEARTBEAT : CStr
  MAX_PASSWORD_SIZE : Nat
  WD_OK : Int

/-- The fields of `pool_config` that `watchdog.c` reads.  `num_wd` stands for
`pool_config->other_wd->num_wd`. -/
structure PoolConfig where
  use_watchdog : Int
  num_wd : Int
  wd_authkey : CStr
  wd_lifecheck_method : CStr
  num_hb_if : Int
  wd_interval : Int
  wd_heartbeat_keepalive : Int
  if_up_cmd : CStr
  if_down_cmd : CStr
  arping_cmd : CStr
  ifconfig_path : CStr
  arping_path : CStr

/-- The calls leaving `watchdog.c` that the supervisor performs. -/
inductive Event where
  | kill (pid : pid_t) (sig : Int)
  | wd_init
  | wd_child (fork_wait_time : Int)
  | wd_hb_receiver (fork_wait_time : Int) (hb_if : Nat)
  | wd_hb_sender (fork_wait_time : Int) (hb_if : Nat)
  | fork_a_lifecheck (fork_wait_time : Int)
  deriving DecidableEq, Repr

/-- The file-level variables of `watchdog.c` (`wd_ppid`, `lifecheck_pid`,
`child_pid`, `hb_receiver_pid[]`, `hb_sender_pid[]`) together with the trace of
calls performed so far. -/
structure Sup where
  wd_ppid : pid_t
  lifecheck_pid : pid_t
  child_pid : pid_t
  hb_receiver_pid : Nat → pid_t
  hb_sender_pid : Nat → pid_t
  trace : List Event

/-- What the operating system and the collaborating files answer: the pid of
the calling process, and the value returned by the process-creating call
(`wd_child`, `wd_hb_receiver`, `wd_hb_sender`, `fork`) that is made when `n`
calls have been traced. -/
structure Ext where
  getpid : pid_t
  spawn : Nat → pid_t

/-- Messages of the `ereport(ERROR, ...)` calls of the supervisor. -/
inductive ErrMsg where
  | other_pgpools_not_defined
  | authkey_too_long
  | failed_to_fork_lifecheck
  deriving DecidableEq, Repr

/-- How a supervisor function ends: it returns a value, it raises
`ereport(ERROR)`, or (after `fork` returned 0) control is in the new lifecheck
process, which never returns to the caller (see `lc_step`). -/
inductive Outcome (α : Type) where
  | ret (val : α) (s : Sup)
  | error (msg : ErrMsg) (s : Sup)
  | lifecheck (fork_wait_time : Int) (s : Sup)

/-- The roles a registry entry stands for. -/
inductive Role where
  | lifecheck
  | child
  | hb_receiver (i : Nat)
  | hb_sender (i : Nat)
  deriving DecidableEq, Repr

/-! ## Helpers -/

/-- Sign of the comparison of two C strings; 0 exactly when they are equal. -/
def strcmp : CStr → CStr → Int
  | [], [] => 0
  | [], _ :: _ => -1
  | _ :: _, [] => 1
  | a :: as, b :: bs =>
    if a = b then strcmp as bs else if a.toNat < b.toNat then -1 else 1

/-- Number of bytes before the terminating NUL. -/
def strlen (s : CStr) : Nat := s.length

/-- Array store `a[i] = v`. -/
def setAt (a : Nat → pid_t) (i : Nat) (v : pid_t) : Nat → pid_t :=
  fun j => if j = i then v else a j

/-- Append a call to the trace. -/
def Sup.emit (s : Sup) (e : Event) : Sup :=
  { s with trace := s.trace ++ [e] }

/-- The loop `for (i = i0; i < i0 + count; i++) body`. -/
def forLoop (body : Nat → Sup → Sup) : Nat → Nat → Sup → Sup
  | 0, _, s => s
  | count + 1, i, s => forLoop body count (i + 1) (body i s)

/-- The registry with every entry `none` and nothing traced. -/
def Sup.empty : Sup :=
  { wd_ppid := 0, lifecheck_pid := 0, child_pid := 0,
    hb_receiver_pid := fun _ => 0, hb_sender_pid := fun _ => 0, trace := [] }

/-- The entry of a role. -/
def Sup.get (s : Sup) : Role → pid_t
  | .lifecheck => s.lifecheck_pid
  | .child => s.child_pid
  | .hb_receiver i => s.hb_receiver_pid i
  | .hb_sender i => s.hb_sender_pid i

/-- The roles that exist for a configuration: lifecheck, child worker, and a
receiver and a sender for every interface index below `num_hb_if`. -/
def configured (cfg : PoolConfig) : Role → Prop
  | .lifecheck => True
  | .child => True
  | .hb_receiver i => (i : Int) < cfg.num_hb_if
  | .hb_sender i => (i : Int) < cfg.num_hb_if

/-- An external factory call: traced, and answered by the oracle. -/
def callFactory (x : Ext) (e : Event) (s : Sup) : pid_t × Sup :=
  (x.spawn s.trace.length, s.emit e)

/-! ## wd_kill_watchdog -/

/-- Body of the loop of `wd_kill_watchdog` for interface `i`. -/
def wd_kill_watchdog_body (sig : Int) (i : Nat) (s : Sup) : Sup :=
  let s := if s.hb_receiver_pid i > 0 then s.emit (.kill (s.hb_receiver_pid i) sig) else s
  let s := { s with hb_receiver_pid := setAt s.hb_receiver_pid i 0 }
  let s := if s.hb_sender_pid i > 0 then s.emit (.kill (s.hb_sender_pid i) sig) else s
  s

/-- `wd_kill_watchdog(sig)`: send `sig` to the watchdog processes. -/
def wd_kill_watchdog (H : Header) (cfg : PoolConfig) (sig : Int) (s : Sup) : Sup :=
  let s := if s.lifecheck_pid > 0 then s.emit (.kill s.lifecheck_pid sig) else s
  let s := { s with lifecheck_pid := 0 }
  let s := if s.child_pid > 0 then s.emit (.kill s.child_pid sig) else s
  let s := { s with child_pid := 0 }
  if strcmp cfg.wd_lifecheck_method H.MODE_HEARTBEAT = 0 then
    forLoop (wd_kill_watchdog_body sig) cfg.num_hb_if.toNat 0 s
  else s

/-! ## wd_check_config, fork_a_lifecheck (parent side), wd_main -/

/-- `wd_check_config()`: `none` when the configuration is accepted, otherwise
the message of the `ereport(ERROR)` that is raised. -/
def wd_check_config (H : Header) (cfg : PoolConfig) : Option ErrMsg :=
  if cfg.num_wd = 0 then some .other_pgpools_not_defined
  else if strlen cfg.wd_authkey > H.MAX_PASSWORD_SIZE then some .authkey_too_long
  else none

/-- `fork_a_lifecheck(fork_wait_time)` as seen by its caller: `fork` is
called; a non-zero result is returned to the caller unless it is -1, which
raises `ERROR`; the result 0 means that control is in the lifecheck process. -/
def fork_a_lifecheck (x : Ext) (fork_wait_time : Int) (s : Sup) : Outcome pid_t :=
  let (pid, s) := callFactory x (.fork_a_lifecheck fork_wait_time) s
  if pid ≠ 0 then
    if pid = -1 then .error .failed_to_fork_lifecheck s
    else .ret pid s
  else .lifecheck fork_wait_time s

/-- Body of the loop of `wd_main` for interface `i`. -/
def wd_main_body (x : Ext) (i : Nat) (s : Sup) : Sup :=
  let (p, s) := callFactory x (.wd_hb_receiver 1 i) s
  let s := { s with hb_receiver_pid := setAt s.hb_receiver_pid i p }
  let (p, s) := callFactory x (.wd_hb_sender 1 i) s
  let s := { s with hb_sender_pid := setAt s.hb_sender_pid i p }
  s

/-- `wd_main(fork_wait_time)`. -/
def wd_main (H : Header) (cfg : PoolConfig) (x : Ext) (fork_wait_time : Int) (s : Sup) :
    Outcome pid_t :=
  if cfg.use_watchdog = 0 then .ret 0 s
  else
    match wd_check_config H cfg with
    | some msg => .error msg s
    | none =>
      let s := s.emit .wd_init
      let s := { s with wd_ppid := x.getpid }
      let (p, s) := callFactory x (.wd_child 1) s
      let s := { s with child_pid := p }
      let s :=
        if strcmp cfg.wd_lifecheck_method H.MODE_HEARTBEAT = 0 then
          forLoop (wd_main_body x) cfg.num_hb_if.toNat 0 s
        else s
      match fork_a_lifecheck x fork_wait_time s with
      | .ret pid s => .ret pid { s with lifecheck_pid := pid }
      | .error msg s => .error msg s
      | .lifecheck w s => .lifecheck w s

/-! ## wd_is_watchdog_pid -/

/-- The loop of `wd_is_watchdog_pid` from index `i`, `count` indices left,
followed by the final `return 0`. -/
def wd_is_watchdog_pid_loop (s : Sup) (pid : pid_t) : Nat → Nat → Int
  | 0, _ => 0
  | count + 1, i =>
    if pid = s.hb_receiver_pid i ∨ pid = s.hb_sender_pid i then 1
    else wd_is_watchdog_pid_loop s pid count (i + 1)

/-- `wd_is_watchdog_pid(pid)`. -/
def wd_is_watchdog_pid (cfg : PoolConfig) (s : Sup) (pid : pid_t) : Int :=
  if pid = s.lifecheck_pid ∨ pid = s.child_pid then 1
  else wd_is_watchdog_pid_loop s pid cfg.num_hb_if.toNat 0

/-! ## wd_reaper_watchdog -/

/-- The receiver/sender loop of `wd_reaper_watchdog` from index `i`, `count`
indices left; either branch ends the loop (`break`). -/
def wd_reaper_watchdog_loop (x : Ext) (pid : pid_t) : Nat → Nat → Sup → Sup
  | 0, _, s => s
  | count + 1, i, s =>
    if pid = s.hb_receiver_pid i then
      let (p, s) := callFactory x (.wd_hb_receiver 1 i) s
      { s with hb_receiver_pid := setAt s.hb_receiver_pid i p }
    else if pid = s.hb_sender_pid i then
      let (p, s) := callFactory x (.wd_hb_sender 1 i) s
      { s with hb_sender_pid := setAt s.hb_sender_pid i p }
    else wd_reaper_watchdog_loop x pid count (i + 1) s

/-- `wd_reaper_watchdog(pid, status)`: restart the watchdog process `pid`.
`status` only selects the wording of a `DEBUG1` message. -/
def wd_reaper_watchdog (cfg : PoolConfig) (x : Ext) (pid : pid_t) (status : Int) (s : Sup) :
    Outcome Int :=
  let _ := status
  if pid = s.lifecheck_pid then
    match fork_a_lifecheck x 1 s with
    | .ret p s => .ret 1 { s with lifecheck_pid := p }
    | .error msg s => .error msg s
    | .lifecheck w s => .lifecheck w s
  else if pid = s.child_pid then
    let (p, s) := callFactory x (.wd_child 1) s
    .ret 1 { s with child_pid := p }
  else
    .ret 1 (wd_reaper_watchdog_loop x pid cfg.num_hb_if.toNat 0 s)

/-! ## The lifecheck process (child branch of fork_a_lifecheck) -/

/-- Product of two `int` values, wrapped to 32 bits two's complement (the
value the supported targets compute; the C standard leaves overflow open). -/
def int_mul (a b : Int) : Int := (a * b + 2 ^ 31) % 2 ^ 32 - 2 ^ 31

/-- Signals whose disposition the lifecheck process sets. -/
inductive Signal where
  | SIGTERM | SIGINT | SIGQUIT | SIGCHLD | SIGHUP | SIGPIPE
  deriving DecidableEq, Repr

/-- Dispositions installed with `signal`. -/
inductive Handler where
  | wd_exit | SIG_DFL | SIG_IGN
  deriving DecidableEq, Repr

/-- Memory contexts switched to by the lifecheck process. -/
inductive Context where
  | TopMemoryContext | ProcessLoopContext
  deriving DecidableEq, Repr

/-- The calls made by the lifecheck process.  `sleep n` is `sleep` called
with the `int` value `n`; `is_wd_lifecheck_ready a` is a call of the readiness
predicate that answered `a`. -/
inductive LcEvent where
  | on_exit_reset
  | sleep (seconds : Int)
  | POOL_SETMASK
  | init_ps_display
  | signal (sig : Signal) (h : Handler)
  | AllocSetContextCreate
  | MemoryContextSwitchTo (c : Context)
  | set_ps_display
  | is_wd_lifecheck_ready (answer : Int)
  | MemoryContextResetAndDeleteChildren
  | wd_lifecheck
  | EmitErrorReport
  | FlushErrorState
  deriving DecidableEq, Repr

/-- How one call of `wd_lifecheck` ends: it returns, it raises
`ereport(ERROR)`, or the process is ended while it runs (`FATAL`, or a
termination signal handled by `wd_exit`, which calls `exit(0)`). -/
inductive IterOutcome where
  | returned | error | terminated
  deriving DecidableEq, Repr

/-- Answers of the collaborators of the lifecheck process: `ready j` is what
the call number `j` of `is_wd_lifecheck_ready` returns, `iter j` is how the
call number `j` of `wd_lifecheck` ends. -/
structure LcInput where
  ready : Nat → Int
  iter : Nat → IterOutcome

/-- Control points of the child branch of `fork_a_lifecheck`: its entry, the
test of the `while` that waits for readiness, the block run when `sigsetjmp`
returns non-zero, the top of the `for (;;)` body, and process exit. -/
inductive LcPc where
  | start | waitReady | recover | loop | exited
  deriving DecidableEq, Repr

/-- State of the lifecheck process: control point, number of readiness polls
and of `wd_lifecheck` calls made, whether `PG_exception_stack` points to
`local_sigjmp_buf`, and the calls made so far. -/
structure LcState where
  pc : LcPc
  polls : Nat
  iters : Nat
  exception_stack : Bool
  trace : List LcEvent
  deriving DecidableEq, Repr

/-- The lifecheck process right after `fork` returned 0. -/
def LcState.init : LcState :=
  { pc := .start, polls := 0, iters := 0, exception_stack := false, trace := [] }

/-- Calls made between the entry of the child branch and the readiness wait. -/
def lc_prologue (fork_wait_time : Int) : List LcEvent :=
  [.on_exit_reset] ++ (if fork_wait_time > 0 then [.sleep fork_wait_time] else []) ++
  [.POOL_SETMASK, .init_ps_display,
   .signal .SIGTERM .wd_exit, .signal .SIGINT .wd_exit, .signal .SIGQUIT .wd_exit,
   .signal .SIGCHLD .SIG_DFL, .signal .SIGHUP .SIG_IGN, .signal .SIGPIPE .SIG_IGN,
   .AllocSetContextCreate, .MemoryContextSwitchTo .TopMemoryContext, .set_ps_display]

/-- Calls of the block that runs after `sigsetjmp` returned non-zero. -/
def lc_recover_events (cfg : PoolConfig) : List LcEvent :=
  [.EmitErrorReport, .MemoryContextSwitchTo .TopMemoryContext, .FlushErrorState,
   .sleep cfg.wd_heartbeat_keepalive]

/-- Calls of one pass of the `for (;;)` body up to and including `wd_lifecheck`. -/
def lc_iter_events : List LcEvent :=
  [.MemoryContextSwitchTo .ProcessLoopContext, .MemoryContextResetAndDeleteChildren,
   .wd_lifecheck]

/-- One step of the lifecheck process: the prologue, one evaluation of the
`while` condition (with the sleep of its body), the recovery block, or one
pass of the `for (;;)` body. -/
def lc_step (H : Header) (cfg : PoolConfig) (fork_wait_time : Int) (inp : LcInput)
    (s : LcState) : LcState :=
  match s.pc with
  | .start =>
    { s with pc := .waitReady, trace := s.trace ++ lc_prologue fork_wait_time }
  | .waitReady =>
    let a := inp.ready s.polls
    if H.WD_OK ≠ a then
      { s with polls := s.polls + 1,
               trace := s.trace ++ [.is_wd_lifecheck_ready a, .sleep (int_mul cfg.wd_interval 10)] }
    else
      { s with pc := .loop, polls := s.polls + 1, exception_stack := true,
               trace := s.trace ++ [.is_wd_lifecheck_ready a] }
  | .recover =>
    { s with pc := .loop, exception_stack := true,
             trace := s.trace ++ lc_recover_events cfg }
  | .loop =>
    match inp.iter s.iters with
    | .returned =>
      { s with iters := s.iters + 1,
               trace := s.trace ++ lc_iter_events ++ [.sleep cfg.wd_interval] }
    | .error =>
      { s with pc := if s.exception_stack then .recover else .exited,
               iters := s.iters + 1, trace := s.trace ++ lc_iter_events }
    | .terminated =>
      { s with pc := .exited, iters := s.iters + 1, trace := s.trace ++ lc_iter_events }
  | .exited => s

/-- The lifecheck process after `n` steps from state `s`. -/
def lc_run_from (H : Header) (cfg : PoolConfig) (fork_wait_time : Int) (inp : LcInput) :
    Nat → LcState → LcState
  | 0, s => s
  | n + 1, s => lc_run_from H cfg fork_wait_time inp n (lc_step H cfg fork_wait_time inp s)

/-- The lifecheck process after `n` steps from its start. -/
def lc_run (H : Header) (cfg : PoolConfig) (fork_wait_time : Int) (inp : LcInput) (n : Nat) :
    LcState :=
  lc_run_from H cfg fork_wait_time inp n LcState.init

/-! ## wd_chk_setuid, has_setuid_bit -/

/-- The fields of `struct stat` that are read. -/
structure Stat where
  st_uid : Nat
  st_mode : Nat
  deriving DecidableEq, Repr

/-- File type mask of `st_mode` (`<sys/stat.h>`). -/
def S_IFMT : Nat := 0o170000

/-- File type of a regular file. -/
def S_IFREG : Nat := 0o100000

/-- The set-user-ID mode bit. -/
def S_ISUID : Nat := 0o4000

/-- `S_ISREG(m)`. -/
def S_ISREG (m : Nat) : Bool := (m &&& S_IFMT) == S_IFREG

/-- What the setuid check consults outside the file: `wd_get_cmd`, which
extracts the command name from a configured command line, and `stat`, which
fails (`none`) or fills the buffer. -/
structure GateExt where
  wd_get_cmd : CStr → CStr
  stat : CStr → Option Stat

/-- Result of the setuid check: a returned value, or the `FATAL` report
"command not found" for a path, which ends the process. -/
inductive Checked where
  | ret (val : Int)
  | fatal_not_found (path : CStr)
  deriving DecidableEq, Repr

/-- `snprintf(path, sizeof(path), "%s/%s", dir, cmd)` with `char path[128]`. -/
def snprintf_path (dir cmd : CStr) : CStr := (dir ++ ['/'] ++ cmd).take 127

/-- Path checked for the ifup command. -/
def ifup_path (cfg : PoolConfig) (g : GateExt) : CStr :=
  snprintf_path cfg.ifconfig_path (g.wd_get_cmd cfg.if_up_cmd)

/-- Path checked for the ifdown command. -/
def ifdown_path (cfg : PoolConfig) (g : GateExt) : CStr :=
  snprintf_path cfg.ifconfig_path (g.wd_get_cmd cfg.if_down_cmd)

/-- Path checked for the arping command. -/
def arping_cmd_path (cfg : PoolConfig) (g : GateExt) : CStr :=
  snprintf_path cfg.arping_path (g.wd_get_cmd cfg.arping_cmd)

/-- `has_setuid_bit(path)`. -/
def has_setuid_bit (g : GateExt) (path : CStr) : Checked :=
  match g.stat path with
  | none => .fatal_not_found path
  | some buf =>
    .ret (if buf.st_uid = 0 ∧ S_ISREG buf.st_mode = true ∧ (buf.st_mode &&& S_ISUID) ≠ 0
          then 1 else 0)

/-- `wd_chk_setuid()`. -/
def wd_chk_setuid (cfg : PoolConfig) (g : GateExt) : Checked :=
  match has_setuid_bit g (ifup_path cfg g) with
  | .fatal_not_found p => .fatal_not_found p
  | .ret r1 =>
    if r1 = 0 then .ret 0
    else
      match has_setuid_bit g (ifdown_path cfg g) with
      | .fatal_not_found p => .fatal_not_found p
      | .ret r2 =>
        if r2 = 0 then .ret 0
        else
          match has_setuid_bit g (arping_cmd_path cfg g) with
          | .fatal_not_found p => .fatal_not_found p
          | .ret r3 => if r3 = 0 then .ret 0 else .ret 1

/-- The requirement on a command file: owned by uid 0, a regular file, and
the set-user-ID bit (bit 11 of the mode) set. -/
def Stat.root_setuid_regular (b : Stat) : Prop :=
  b.st_uid = 0 ∧ S_ISREG b.st_mode = true ∧ b.st_mode.testBit 11 = true

instance (b : Stat) : Decidable b.root_setuid_regular := by
  unfold Stat.root_setuid_regular; infer_instance

instance (cfg : PoolConfig) (r : Role) : Decidable (configured cfg r) := by
  cases r <;> unfold configured <;> infer_instance

/-- In the trace `t`, every call of `wd_lifecheck` comes after a call of the
readiness predicate that answered `ok`. -/
def ReadyBeforeLifecheck (ok : Int) (t : List LcEvent) : Prop :=
  ∀ pre post, t = pre ++ LcEvent.wd_lifecheck :: post →
    LcEvent.is_wd_lifecheck_ready ok ∈ pre

/-- What holds of every state the lifecheck process reaches: polls gate the
calls of `wd_lifecheck`; before the wait has ended no iteration has run; after
it a poll answered `WD_OK`; and inside the loop `PG_exception_stack` is set. -/
def LcInv (H : Header) (s : LcState) : Prop :=
  ReadyBeforeLifecheck H.WD_OK s.trace ∧
  ((s.pc = .start ∨ s.pc = .waitReady) → LcEvent.wd_lifecheck ∉ s.trace ∧ s.iters = 0) ∧
  ((s.pc = .loop ∨ s.pc = .recover ∨ s.pc = .exited) →
    LcEvent.is_wd_lifecheck_ready H.WD_OK ∈ s.trace) ∧
  (s.pc = .loop → s.exception_stack = true)

/-! ## Concrete inputs used by the instances below -/

/-- The header constants as the program ships them. -/
def exHeader : Header :=
  { MODE_HEARTBEAT := "heartbeat".toList, MAX_PASSWORD_SIZE := 1024, WD_OK := 0 }

/-- A heartbeat configuration with `n` interfaces and one peer. -/
def exConfig (n : Int) : PoolConfig :=
  { use_watchdog := 1, num_wd := 1, wd_authkey := "secret".toList,
    wd_lifecheck_method := "heartbeat".toList, num_hb_if := n,
    wd_interval := 10, wd_heartbeat_keepalive := 2,
    if_up_cmd := "ifup_cmd eth0".toList, if_down_cmd := "ifdown_cmd eth0".toList,
    arping_cmd := "arping -U".toList,
    ifconfig_path := "/sbin".toList, arping_path := "/usr/sbin".toList }

/-- A registry with one interface: lifecheck 101, child 102, receiver 103,
sender 104. -/
def exSup : Sup :=
  { wd_ppid := 100, lifecheck_pid := 101, child_pid := 102,
    hb_receiver_pid := fun i => if i = 0 then 103 else 0,
    hb_sender_pid := fun i => if i = 0 then 104 else 0, trace := [] }

/-- Factory answers 201, 202, 203, ... -/
def exExt : Ext := { getpid := 100, spawn := fun n => 201 + n }

/-- A command-name extractor: the command line up to its first blank. -/
def exGetCmd (line : CStr) : CStr := line.takeWhile (fun c => c != ' ')

/-- Mode and owner of a root-owned setuid regular file (rwsr-xr-x). -/
def exGoodStat : Stat := { st_uid := 0, st_mode := 0o104755 }

/-- Mode and owner of a regular file of uid 1000 without the setuid bit. -/
def exUserStat : Stat := { st_uid := 1000, st_mode := 0o100755 }

/-- A filesystem in which only the ifup command exists, owned by uid 1000. -/
def exGateUserIfup : GateExt :=
  { wd_get_cmd := exGetCmd,
    stat := fun p => if p = "/sbin/ifup_cmd".toList then some exUserStat else none }

/-- A filesystem in which the ifup command is in order and nothing else exists. -/
def exGateOnlyIfup : GateExt :=
  { wd_get_cmd := exGetCmd,
    stat := fun p => if p = "/sbin/ifup_cmd".toList then some exGoodStat else none }

/-- A filesystem in which the three commands exist; ifup and arping are in
order, ifdown is owned by uid 1000. -/
def exGateAll : GateExt :=
  { wd_get_cmd := exGetCmd,
    stat := fun p =>
      if p = "/sbin/ifup_cmd".toList then some exGoodStat
      else if p = "/sbin/ifdown_cmd".toList then some exUserStat
      else if p = "/usr/sbin/arping".toList then some exGoodStat
      else none }

/-- Readiness answers: not ready twice, then ready; every iteration returns
except the second, which raises `ERROR`. -/
def exLcInput : LcInput :=
  { ready := fun j => if j < 2 then 1 else 0,
    iter := fun j => if j = 1 then .error else .returned }

/-! ## Basic facts -/

theorem strcmp_eq_zero_iff (a b : CStr) : strcmp a b = 0 ↔ a = b := by
  induction a generalizing b with
  | nil => cases b <;> simp [strcmp]
  | cons x xs ih =>
    cases b with
    | nil => simp [strcmp]
    | cons y ys =>
      by_cases h : x = y
      · simp [strcmp, h, ih]
      · by_cases h2 : x.toNat < y.toNat <;> simp [strcmp, h, h2]

/-- The scan of `wd_is_watchdog_pid` answers 0 or 1. -/
theorem is_pid_loop_range (s : Sup) (pid : pid_t) (count i : Nat) :
    wd_is_watchdog_pid_loop s pid count i = 1 ∨ wd_is_watchdog_pid_loop s pid count i = 0 := by
  induction count generalizing i with
  | zero => right; rfl
  | succ k ih =>
    unfold wd_is_watchdog_pid_loop
    split
    · left; rfl
    · exact ih (i + 1)

/-- The scan of `wd_is_watchdog_pid` answers 1 exactly when a scanned slot
stores `pid`. -/
theorem is_pid_loop_iff (s : Sup) (pid : pid_t) (count i : Nat) :
    wd_is_watchdog_pid_loop s pid count i = 1 ↔
      ∃ j, i ≤ j ∧ j < i + count ∧ (pid = s.hb_receiver_pid j ∨ pid = s.hb_sender_pid j) := by
  induction count generalizing i with
  | zero =>
    simp only [wd_is_watchdog_pid_loop]
    constructor
    · intro h; exact absurd h (by decide)
    · rintro ⟨j, h1, h2, _⟩; omega
  | succ k ih =>
    unfold wd_is_watchdog_pid_loop
    split
    · rename_i h
      simp only [true_iff]
      exact ⟨i, le_refl _, by omega, h⟩
    · rename_i h
      rw [ih (i + 1)]
      constructor
      · rintro ⟨j, h1, h2, h3⟩
        exact ⟨j, by omega, by omega, h3⟩
      · rintro ⟨j, h1, h2, h3⟩
        have hne : j ≠ i := by
          intro e; subst e; exact h h3
        exact ⟨j, by omega, by omega, h3⟩

/-- The answer of `wd_is_watchdog_pid` is 1 exactly when `pid` equals the value
stored in the entry of a configured role. -/
theorem is_pid_iff (cfg : PoolConfig) (s : Sup) (pid : pid_t) :
    wd_is_watchdog_pid cfg s pid = 1 ↔ ∃ r, configured cfg r ∧ s.get r = pid := by
  unfold wd_is_watchdog_pid
  split
  · rename_i h
    simp only [true_iff]
    rcases h with h | h
    · exact ⟨.lifecheck, trivial, h.symm⟩
    · exact ⟨.child, trivial, h.symm⟩
  · rename_i h
    rw [is_pid_loop_iff]
    constructor
    · rintro ⟨j, _, h2, h3 | h3⟩
      · exact ⟨.hb_receiver j, by simp only [configured]; omega, h3.symm⟩
      · exact ⟨.hb_sender j, by simp only [configured]; omega, h3.symm⟩
    · rintro ⟨r, hr, hg⟩
      cases r with
      | lifecheck => exact absurd (Or.inl hg.symm) h
      | child => exact absurd (Or.inr hg.symm) h
      | hb_receiver j =>
        simp only [configured] at hr
        exact ⟨j, Nat.zero_le _, by omega, Or.inl hg.symm⟩
      | hb_sender j =>
        simp only [configured] at hr
        exact ⟨j, Nat.zero_le _, by omega, Or.inr hg.symm⟩

theorem is_pid_range (cfg : PoolConfig) (s : Sup) (pid : pid_t) :
    wd_is_watchdog_pid cfg s pid = 1 ∨ wd_is_watchdog_pid cfg s pid = 0 := by
  unfold wd_is_watchdog_pid
  split
  · left; rfl
  · exact is_pid_loop_range _ _ _ _

/-! ## wd_kill_watchdog -/

/-- C1, evaluated on the registry lifecheck 101, child 102, receiver 103,
sender 104 in heartbeat mode with one interface: the first call of
`wd_kill_watchdog` signals the four processes, clears the lifecheck, child and
receiver entries, and leaves the sender entry at 104; the second call signals
104 once more. -/
theorem wd_kill_watchdog_sender_not_cleared :
    (wd_kill_watchdog exHeader (exConfig 1) 15 exSup).trace
        = [.kill 101 15, .kill 102 15, .kill 103 15, .kill 104 15] ∧
    (wd_kill_watchdog exHeader (exConfig 1) 15 exSup).lifecheck_pid = 0 ∧
    (wd_kill_watchdog exHeader (exConfig 1) 15 exSup).child_pid = 0 ∧
    (wd_kill_watchdog exHeader (exConfig 1) 15 exSup).hb_receiver_pid 0 = 0 ∧
    (wd_kill_watchdog exHeader (exConfig 1) 15 exSup).hb_sender_pid 0 = 104 ∧
    (wd_kill_watchdog exHeader (exConfig 1) 15
        (wd_kill_watchdog exHeader (exConfig 1) 15 exSup)).trace
        = [.kill 101 15, .kill 102 15, .kill 103 15, .kill 104 15, .kill 104 15] := by
  decide

/-! ## wd_is_watchdog_pid -/

/-- C4 as stated fails: on the cleared registry the pid 0 is reported as owned
although no entry holds a process. -/
theorem wd_is_watchdog_pid_zero_owned :
    wd_is_watchdog_pid (exConfig 1) Sup.empty 0 = 1 ∧
    ¬ ∃ r, configured (exConfig 1) r ∧ Sup.empty.get r ≠ 0 ∧ Sup.empty.get r = 0 := by
  refine ⟨by decide, ?_⟩
  rintro ⟨r, _, h1, h2⟩
  exact h1 h2

/-- C4 (amended): `wd_is_watchdog_pid` returns 1 exactly when `pid` equals the
value stored in the entry of some configured role (a cleared entry stores 0),
and returns 0 otherwise; hence for every pid other than 0 it returns 1 exactly
when `pid` is held by an entry that is not cleared. -/
theorem wd_is_watchdog_pid_spec (cfg : PoolConfig) (s : Sup) (pid : pid_t) :
    (wd_is_watchdog_pid cfg s pid = 1 ↔ ∃ r, configured cfg r ∧ s.get r = pid) ∧
    ((¬ ∃ r, configured cfg r ∧ s.get r = pid) → wd_is_watchdog_pid cfg s pid = 0) ∧
    (pid ≠ 0 →
      (wd_is_watchdog_pid cfg s pid = 1 ↔
        ∃ r, configured cfg r ∧ s.get r ≠ 0 ∧ s.get r = pid)) := by
  refine ⟨is_pid_iff cfg s pid, ?_, ?_⟩
  · intro h
    rcases is_pid_range cfg s pid with h1 | h0
    · exact absurd ((is_pid_iff cfg s pid).1 h1) h
    · exact h0
  · intro hpid
    rw [is_pid_iff]
    constructor
    · rintro ⟨r, hr, hg⟩
      exact ⟨r, hr, by rw [hg]; exact hpid, hg⟩
    · rintro ⟨r, hr, _, hg⟩
      exact ⟨r, hr, hg⟩

/-- Instance of the amended C4 at the registry `exSup`: 104 is owned, 105 is
not. -/
theorem wd_is_watchdog_pid_spec_witness :
    (104 : pid_t) ≠ 0 ∧
    (wd_is_watchdog_pid (exConfig 1) exSup 104 = 1 ↔
      ∃ r, configured (exConfig 1) r ∧ exSup.get r ≠ 0 ∧ exSup.get r = 104) ∧
    wd_is_watchdog_pid (exConfig 1) exSup 104 = 1 ∧
    wd_is_watchdog_pid (exConfig 1) exSup 105 = 0 :=
  ⟨by decide, (wd_is_watchdog_pid_spec (exConfig 1) exSup 104).2.2 (by decide),
   by decide, by decide⟩

/-! ## wd_reaper_watchdog -/

/-- The receiver/sender scan changes nothing when no scanned slot stores `pid`. -/
theorem reaper_loop_nomatch (x : Ext) (pid : pid_t) (count i : Nat) (s : Sup)
    (h : ∀ j, i ≤ j → j < i + count →
      pid ≠ s.hb_receiver_pid j ∧ pid ≠ s.hb_sender_pid j) :
    wd_reaper_watchdog_loop x pid count i s = s := by
  induction count generalizing i with
  | zero => rfl
  | succ k ih =>
    have hi := h i (le_refl _) (by omega)
    unfold wd_reaper_watchdog_loop
    rw [if_neg hi.1, if_neg hi.2]
    exact ih (i + 1) (fun j h1 h2 => h j (by omega) (by omega))

/-- C3: when `pid` equals no entry of a configured role, `wd_reaper_watchdog`
returns 1 without calling a factory and leaves the registry (and the trace of
calls) as it was. -/
theorem wd_reaper_watchdog_foreign (cfg : PoolConfig) (x : Ext) (pid : pid_t) (status : Int)
    (s : Sup) (h : ∀ r, configured cfg r → s.get r ≠ pid) :
    wd_reaper_watchdog cfg x pid status s = .ret 1 s := by
  have h1 : pid ≠ s.lifecheck_pid := fun e => h .lifecheck trivial e.symm
  have h2 : pid ≠ s.child_pid := fun e => h .child trivial e.symm
  unfold wd_reaper_watchdog
  simp only [if_neg h1, if_neg h2]
  rw [reaper_loop_nomatch]
  intro j _ hj
  constructor
  · intro e
    exact h (.hb_receiver j) (by simp only [configured]; omega) e.symm
  · intro e
    exact h (.hb_sender j) (by simp only [configured]; omega) e.symm

/-- Instance of C3: pid 999 is not in the registry `exSup`. -/
theorem wd_reaper_watchdog_foreign_witness :
    wd_reaper_watchdog (exConfig 1) exExt 999 0 exSup = .ret 1 exSup :=
  wd_reaper_watchdog_foreign (exConfig 1) exExt 999 0 exSup (by
    intro r hr
    cases r with
    | lifecheck => decide
    | child => decide
    | hb_receiver i =>
      simp only [configured, exConfig] at hr
      have : i = 0 := by omega
      subst this; decide
    | hb_sender i =>
      simp only [configured, exConfig] at hr
      have : i = 0 := by omega
      subst this; decide)

theorem length_flatMap_two (f g : Nat → Event) (l : List Nat) :
    (l.flatMap (fun j => [f j, g j])).length = 2 * l.length := by
  induction l with
  | nil => rfl
  | cons a t ih =>
    rw [List.flatMap_cons, List.length_append, ih, List.length_cons]
    simp only [List.length_cons, List.length_nil]
    omega

/-- The loop of `wd_main` over `count` interfaces from index `i`: what it
traces and what it stores. -/
theorem wd_main_loop_spec (x : Ext) (count i : Nat) (s : Sup) :
    (forLoop (wd_main_body x) count i s).trace
      = s.trace ++ (List.range' i count).flatMap
          (fun j => [Event.wd_hb_receiver 1 j, Event.wd_hb_sender 1 j]) ∧
    (forLoop (wd_main_body x) count i s).wd_ppid = s.wd_ppid ∧
    (forLoop (wd_main_body x) count i s).lifecheck_pid = s.lifecheck_pid ∧
    (forLoop (wd_main_body x) count i s).child_pid = s.child_pid ∧
    (∀ j, i ≤ j → j < i + count →
      (forLoop (wd_main_body x) count i s).hb_receiver_pid j
        = x.spawn (s.trace.length + 2 * (j - i)) ∧
      (forLoop (wd_main_body x) count i s).hb_sender_pid j
        = x.spawn (s.trace.length + 2 * (j - i) + 1)) ∧
    (∀ j, (j < i ∨ i + count ≤ j) →
      (forLoop (wd_main_body x) count i s).hb_receiver_pid j = s.hb_receiver_pid j ∧
      (forLoop (wd_main_body x) count i s).hb_sender_pid j = s.hb_sender_pid j) := by
  induction count generalizing i s with
  | zero =>
    refine ⟨?_, rfl, rfl, rfl, ?_, ?_⟩
    · simp only [forLoop, List.range'_zero, List.flatMap_nil, List.append_nil]
    · intro j h1 h2; omega
    · intro j _; exact ⟨rfl, rfl⟩
  | succ c ih =>
    obtain ⟨h1, h2, h3, h4, h5, h6⟩ := ih (i + 1) (wd_main_body x i s)
    have ht : (wd_main_body x i s).trace
        = s.trace ++ [Event.wd_hb_receiver 1 i, Event.wd_hb_sender 1 i] := by
      simp [wd_main_body, callFactory, Sup.emit]
    have hlen : (wd_main_body x i s).trace.length = s.trace.length + 2 := by
      rw [ht]; simp
    have hr : ∀ j, (wd_main_body x i s).hb_receiver_pid j
        = if j = i then x.spawn s.trace.length else s.hb_receiver_pid j := by
      intro j; simp [wd_main_body, callFactory, Sup.emit, setAt]
    have hs : ∀ j, (wd_main_body x i s).hb_sender_pid j
        = if j = i then x.spawn (s.trace.length + 1) else s.hb_sender_pid j := by
      intro j; simp [wd_main_body, callFactory, Sup.emit, setAt]
    simp only [forLoop]
    refine ⟨?_, ?_, ?_, ?_, ?_, ?_⟩
    · rw [h1, ht, List.range'_succ, List.flatMap_cons, List.append_assoc]
    · rw [h2]; rfl
    · rw [h3]; rfl
    · rw [h4]; rfl
    · intro j hj1 hj2
      by_cases e : j = i
      · subst e
        obtain ⟨a, b⟩ := h6 j (Or.inl (by omega))
        rw [a, b, hr, hs]
        simp
      · obtain ⟨a, b⟩ := h5 j (by omega) (by omega)
        rw [a, b, hlen]
        constructor
        · congr 1; omega
        · congr 1; omega
    · intro j hj
      obtain ⟨a, b⟩ := h6 j (by omega)
      rw [a, b, hr, hs]
      have : j ≠ i := by omega
      simp [this]

/-- C5: with watchdog mode enabled, a peer count of 0 or an authentication
key longer than `MAX_PASSWORD_SIZE` makes `wd_main` end in the corresponding
configuration `ERROR`, with no call made (no factory, no `wd_init`) and every
file-level variable as before. -/
theorem wd_main_refused (H : Header) (cfg : PoolConfig) (x : Ext) (fork_wait_time : Int)
    (s : Sup) (hw : cfg.use_watchdog ≠ 0)
    (hbad : cfg.num_wd = 0 ∨ strlen cfg.wd_authkey > H.MAX_PASSWORD_SIZE) :
    wd_main H cfg x fork_wait_time s
      = .error (if cfg.num_wd = 0 then .other_pgpools_not_defined else .authkey_too_long) s := by
  unfold wd_main wd_check_config
  rw [if_neg hw]
  by_cases h0 : cfg.num_wd = 0
  · simp only [if_pos h0]
  · have h1 : strlen cfg.wd_authkey > H.MAX_PASSWORD_SIZE := by
      rcases hbad with h | h
      · exact absurd h h0
      · exact h
    simp only [if_neg h0, if_pos h1]

/-- Instance of C5: no peer configured. -/
theorem wd_main_refused_witness :
    wd_main exHeader { exConfig 2 with num_wd := 0 } exExt 5 exSup
      = .error .other_pgpools_not_defined exSup :=
  wd_main_refused exHeader { exConfig 2 with num_wd := 0 } exExt 5 exSup
    (by decide) (Or.inl rfl)

/-- C6: with watchdog mode enabled, at least one peer, an authentication key
within `MAX_PASSWORD_SIZE` and every process-creating call answering a
positive pid, `wd_main` on the empty registry returns the pid it stored in the
lifecheck entry.  In heartbeat mode it calls `wd_child(1)`, then for each
interface `i` below `num_hb_if` the receiver and the sender factory, then
`fork_a_lifecheck(fork_wait_time)`, each once, and stores each answer in the
entry of its role (slots from `num_hb_if` on stay 0).  In any other mode it
only calls `wd_child(1)` and `fork_a_lifecheck(fork_wait_time)`, and every
receiver and sender entry stays 0. -/
theorem wd_main_populates (H : Header) (cfg : PoolConfig) (x : Ext) (fork_wait_time : Int)
    (hw : cfg.use_watchdog ≠ 0) (hn : 1 ≤ cfg.num_wd)
    (hk : strlen cfg.wd_authkey ≤ H.MAX_PASSWORD_SIZE)
    (hok : ∀ k, 0 < x.spawn k) :
    ∃ s2 : Sup,
      wd_main H cfg x fork_wait_time Sup.empty = .ret s2.lifecheck_pid s2 ∧
      s2.child_pid = x.spawn 1 ∧
      (cfg.wd_lifecheck_method = H.MODE_HEARTBEAT →
        s2.trace = [Event.wd_init, Event.wd_child 1]
          ++ (List.range cfg.num_hb_if.toNat).flatMap
              (fun i => [Event.wd_hb_receiver 1 i, Event.wd_hb_sender 1 i])
          ++ [Event.fork_a_lifecheck fork_wait_time] ∧
        s2.lifecheck_pid = x.spawn (2 + 2 * cfg.num_hb_if.toNat) ∧
        (∀ i, i < cfg.num_hb_if.toNat →
          s2.hb_receiver_pid i = x.spawn (2 + 2 * i) ∧
          s2.hb_sender_pid i = x.spawn (2 + 2 * i + 1)) ∧
        (∀ i, cfg.num_hb_if.toNat ≤ i →
          s2.hb_receiver_pid i = 0 ∧ s2.hb_sender_pid i = 0)) ∧
      (cfg.wd_lifecheck_method ≠ H.MODE_HEARTBEAT →
        s2.trace = [Event.wd_init, Event.wd_child 1, Event.fork_a_lifecheck fork_wait_time] ∧
        s2.lifecheck_pid = x.spawn 2 ∧
        (∀ i, s2.hb_receiver_pid i = 0 ∧ s2.hb_sender_pid i = 0)) := by
  have hcfg : wd_check_config H cfg = none := by
    unfold wd_check_config
    rw [if_neg (by omega), if_neg (by omega)]
  have hne0 : ∀ k, x.spawn k ≠ 0 := fun k => ne_of_gt (hok k)
  have hne1 : ∀ k, x.spawn k ≠ -1 := by
    intro k e
    have h := hok k
    rw [e] at h
    exact absurd h (by decide)
  by_cases hm : cfg.wd_lifecheck_method = H.MODE_HEARTBEAT
  · have hs : strcmp cfg.wd_lifecheck_method H.MODE_HEARTBEAT = 0 :=
      (strcmp_eq_zero_iff _ _).2 hm
    obtain ⟨h1, _, _, h4, h5, h6⟩ := wd_main_loop_spec x cfg.num_hb_if.toNat 0
      { wd_ppid := x.getpid, lifecheck_pid := 0, child_pid := x.spawn 1,
        hb_receiver_pid := fun _ => 0, hb_sender_pid := fun _ => 0,
        trace := [Event.wd_init, Event.wd_child 1] }
    generalize hL : forLoop (wd_main_body x) cfg.num_hb_if.toNat 0
      { wd_ppid := x.getpid, lifecheck_pid := 0, child_pid := x.spawn 1,
        hb_receiver_pid := fun _ => 0, hb_sender_pid := fun _ => 0,
        trace := [Event.wd_init, Event.wd_child 1] } = L at h1 h4 h5 h6
    refine ⟨{ L.emit (.fork_a_lifecheck fork_wait_time) with
              lifecheck_pid := x.spawn L.trace.length }, ?_, h4, ?_, ?_⟩
    · unfold wd_main fork_a_lifecheck callFactory
      simp only [if_neg hw, hcfg, Sup.empty, Sup.emit, List.nil_append, List.length_singleton,
        List.singleton_append, hs, if_true, ne_eq, hne0, not_false_eq_true, hne1, if_false, hL]
    · intro _
      refine ⟨?_, ?_, ?_, ?_⟩
      · show L.trace ++ _ = _
        rw [h1, List.range_eq_range']
      · show x.spawn _ = _
        rw [h1]
        congr 1
        rw [List.length_append, length_flatMap_two, List.length_range']
        simp only [List.length_cons, List.length_nil]
      · intro i hi
        obtain ⟨a, b⟩ := h5 i (Nat.zero_le _) (by omega)
        exact ⟨a, b⟩
      · intro i hi
        obtain ⟨a, b⟩ := h6 i (Or.inr (by omega))
        exact ⟨a, b⟩
    · intro h; exact absurd hm h
  · have hs : strcmp cfg.wd_lifecheck_method H.MODE_HEARTBEAT ≠ 0 :=
      fun e => hm ((strcmp_eq_zero_iff _ _).1 e)
    refine ⟨{ wd_ppid := x.getpid, lifecheck_pid := x.spawn 2, child_pid := x.spawn 1,
              hb_receiver_pid := fun _ => 0, hb_sender_pid := fun _ => 0,
              trace := [Event.wd_init, Event.wd_child 1,
                Event.fork_a_lifecheck fork_wait_time] }, ?_, rfl, ?_, ?_⟩
    · unfold wd_main fork_a_lifecheck callFactory
      simp only [if_neg hw, hcfg, Sup.empty, Sup.emit, List.nil_append, List.length_singleton,
        List.singleton_append, hs, if_false, ne_eq, hne0, not_false_eq_true, hne1, if_true]
      rfl
    · intro h; exact absurd h hm
    · intro _
      exact ⟨rfl, rfl, fun _ => ⟨rfl, rfl⟩⟩

/-- Instance of C6: heartbeat mode, two interfaces, one peer.  Six processes
are created and `wd_main` returns the lifecheck pid 207. -/
theorem wd_main_populates_witness :
    ∃ s2 : Sup,
      wd_main exHeader (exConfig 2) exExt 5 Sup.empty = .ret 207 s2 ∧
      s2.trace = [Event.wd_init, Event.wd_child 1,
        Event.wd_hb_receiver 1 0, Event.wd_hb_sender 1 0,
        Event.wd_hb_receiver 1 1, Event.wd_hb_sender 1 1,
        Event.fork_a_lifecheck 5] ∧
      s2.lifecheck_pid = 207 ∧ s2.child_pid = 202 ∧
      s2.hb_receiver_pid 0 = 203 ∧ s2.hb_sender_pid 0 = 204 ∧
      s2.hb_receiver_pid 1 = 205 ∧ s2.hb_sender_pid 1 = 206 := by
  obtain ⟨s2, h1, h2, h3, _⟩ := wd_main_populates exHeader (exConfig 2) exExt 5
    (by decide) (by decide) (by decide)
    (fun k => by show (0 : Int) < 201 + (k : Int); omega)
  obtain ⟨t, l, hs, _⟩ := h3 rfl
  have hl : s2.lifecheck_pid = 207 := l
  rw [hl] at h1
  exact ⟨s2, h1, t, hl, h2, (hs 0 (by decide)).1, (hs 0 (by decide)).2,
    (hs 1 (by decide)).1, (hs 1 (by decide)).2⟩

/-! ## wd_chk_setuid -/

theorem setuid_bit_iff (m : Nat) : (m &&& S_ISUID) ≠ 0 ↔ m.testBit 11 = true := by
  have h : S_ISUID = 2 ^ 11 := by decide
  rw [h, Nat.and_two_pow]
  cases m.testBit 11 <;> simp

/-- What `has_setuid_bit` returns for a file that can be stat'ed. -/
theorem has_setuid_bit_of_stat (g : GateExt) (path : CStr) (b : Stat)
    (h : g.stat path = some b) :
    has_setuid_bit g path = .ret (if b.root_setuid_regular then 1 else 0) := by
  unfold has_setuid_bit Stat.root_setuid_regular
  rw [h]
  simp only [setuid_bit_iff]

theorem has_setuid_bit_of_missing (g : GateExt) (path : CStr) (h : g.stat path = none) :
    has_setuid_bit g path = .fatal_not_found path := by
  unfold has_setuid_bit
  rw [h]

/-- C8: when the three command files can be stat'ed, `wd_chk_setuid` returns
a value (no `FATAL`): 1 when each of the three is owned by uid 0, is a regular
file and has the set-user-ID bit, and 0 otherwise. -/
theorem wd_chk_setuid_all_exist (cfg : PoolConfig) (g : GateExt) (b1 b2 b3 : Stat)
    (h1 : g.stat (ifup_path cfg g) = some b1)
    (h2 : g.stat (ifdown_path cfg g) = some b2)
    (h3 : g.stat (arping_cmd_path cfg g) = some b3) :
    wd_chk_setuid cfg g
      = .ret (if b1.root_setuid_regular ∧ b2.root_setuid_regular ∧ b3.root_setuid_regular
              then 1 else 0) := by
  unfold wd_chk_setuid
  rw [has_setuid_bit_of_stat g _ b1 h1, has_setuid_bit_of_stat g _ b2 h2,
    has_setuid_bit_of_stat g _ b3 h3]
  by_cases c1 : b1.root_setuid_regular <;> by_cases c2 : b2.root_setuid_regular <;>
    by_cases c3 : b3.root_setuid_regular <;> simp [c1, c2, c3]

/-- Instance of C8: ifdown is owned by uid 1000, the check returns 0. -/
theorem wd_chk_setuid_all_exist_witness :
    wd_chk_setuid (exConfig 1) exGateAll = .ret 0 :=
  wd_chk_setuid_all_exist (exConfig 1) exGateAll exGoodStat exUserStat exGoodStat
    (by decide) (by decide) (by decide)

/-- C7 as stated fails: ifdown and arping cannot be stat'ed, yet the check
returns 0, because ifup exists and is owned by uid 1000. -/
theorem wd_chk_setuid_missing_not_fatal :
    exGateUserIfup.stat (ifdown_path (exConfig 1) exGateUserIfup) = none ∧
    exGateUserIfup.stat (arping_cmd_path (exConfig 1) exGateUserIfup) = none ∧
    wd_chk_setuid (exConfig 1) exGateUserIfup = .ret 0 := by
  decide

/-- C7 (amended): the files are checked in the order ifup, ifdown, arping.
When a file cannot be stat'ed and every file checked before it exists, is
owned by uid 0, is regular and has the set-user-ID bit, `wd_chk_setuid` ends in
the `FATAL` report "command not found" for that file, whatever the files checked
after it are.  When a file checked earlier exists but does not meet the
requirement, 0 is returned and the later files are not examined. -/
theorem wd_chk_setuid_missing (cfg : PoolConfig) (g : GateExt) :
    (g.stat (ifup_path cfg g) = none →
      wd_chk_setuid cfg g = .fatal_not_found (ifup_path cfg g)) ∧
    (∀ b1, g.stat (ifup_path cfg g) = some b1 → b1.root_setuid_regular →
      g.stat (ifdown_path cfg g) = none →
      wd_chk_setuid cfg g = .fatal_not_found (ifdown_path cfg g)) ∧
    (∀ b1 b2, g.stat (ifup_path cfg g) = some b1 → b1.root_setuid_regular →
      g.stat (ifdown_path cfg g) = some b2 → b2.root_setuid_regular →
      g.stat (arping_cmd_path cfg g) = none →
      wd_chk_setuid cfg g = .fatal_not_found (arping_cmd_path cfg g)) ∧
    (∀ b1, g.stat (ifup_path cfg g) = some b1 → ¬ b1.root_setuid_regular →
      wd_chk_setuid cfg g = .ret 0) ∧
    (∀ b1 b2, g.stat (ifup_path cfg g) = some b1 → b1.root_setuid_regular →
      g.stat (ifdown_path cfg g) = some b2 → ¬ b2.root_setuid_regular →
      wd_chk_setuid cfg g = .ret 0) := by
  refine ⟨?_, ?_, ?_, ?_, ?_⟩
  · intro h
    unfold wd_chk_setuid
    rw [has_setuid_bit_of_missing g _ h]
  · intro b1 h1 c1 h2
    unfold wd_chk_setuid
    rw [has_setuid_bit_of_stat g _ b1 h1, has_setuid_bit_of_missing g _ h2]
    simp [c1]
  · intro b1 b2 h1 c1 h2 c2 h3
    unfold wd_chk_setuid
    rw [has_setuid_bit_of_stat g _ b1 h1, has_setuid_bit_of_stat g _ b2 h2,
      has_setuid_bit_of_missing g _ h3]
    simp [c1, c2]
  · intro b1 h1 c1
    unfold wd_chk_setuid
    rw [has_setuid_bit_of_stat g _ b1 h1]
    simp [c1]
  · intro b1 b2 h1 c1 h2 c2
    unfold wd_chk_setuid
    rw [has_setuid_bit_of_stat g _ b1 h1, has_setuid_bit_of_stat g _ b2 h2]
    simp [c1, c2]

/-- Instance of the amended C7: ifup is in order and ifdown is missing, the
check ends in the `FATAL` report for the ifdown path. -/
theorem wd_chk_setuid_missing_witness :
    wd_chk_setuid (exConfig 1) exGateOnlyIfup = .fatal_not_found "/sbin/ifdown_cmd".toList :=
  (wd_chk_setuid_missing (exConfig 1) exGateOnlyIfup).2.1 exGoodStat
    (by decide) (by decide) (by decide)

/-! ## The lifecheck process -/

theorem lc_run_from_succ (H : Header) (cfg : PoolConfig) (w : Int) (inp : LcInput)
    (n : Nat) (s : LcState) :
    lc_run_from H cfg w inp (n + 1) s = lc_step H cfg w inp (lc_run_from H cfg w inp n s) := by
  induction n generalizing s with
  | zero => rfl
  | succ k ih =>
    show lc_run_from H cfg w inp (k + 1) (lc_step H cfg w inp s) = _
    rw [ih]
    rfl

theorem lc_run_from_add (H : Header) (cfg : PoolConfig) (w : Int) (inp : LcInput)
    (n m : Nat) (s : LcState) :
    lc_run_from H cfg w inp (n + m) s
      = lc_run_from H cfg w inp m (lc_run_from H cfg w inp n s) := by
  induction m with
  | zero => rfl
  | succ k ih =>
    rw [← Nat.add_assoc, lc_run_from_succ, lc_run_from_succ, ih]

theorem ready_before_append_of_not_mem (ok : Int) (t evs : List LcEvent)
    (ht : ReadyBeforeLifecheck ok t) (hn : LcEvent.wd_lifecheck ∉ evs) :
    ReadyBeforeLifecheck ok (t ++ evs) := by
  intro pre post h
  rcases List.append_eq_append_iff.1 h with ⟨a, _, h2⟩ | ⟨c, h1, h2⟩
  · exact absurd (by rw [h2]; simp) hn
  · cases c with
    | nil =>
      simp only [List.nil_append] at h2
      exact absurd (by rw [← h2]; simp) hn
    | cons d c2 =>
      simp only [List.cons_append, List.cons.injEq] at h2
      rw [← h2.1] at h1
      exact ht pre c2 h1

theorem ready_before_append_of_mem (ok : Int) (t evs : List LcEvent)
    (ht : ReadyBeforeLifecheck ok t) (hm : LcEvent.is_wd_lifecheck_ready ok ∈ t) :
    ReadyBeforeLifecheck ok (t ++ evs) := by
  intro pre post h
  rcases List.append_eq_append_iff.1 h with ⟨a, h1, _⟩ | ⟨c, h1, h2⟩
  · rw [h1]
    exact List.mem_append_left _ hm
  · cases c with
    | nil =>
      simp only [List.append_nil] at h1
      rw [← h1]
      exact hm
    | cons d c2 =>
      simp only [List.cons_append, List.cons.injEq] at h2
      rw [← h2.1] at h1
      exact ht pre c2 h1

theorem lifecheck_not_mem_prologue (w : Int) : LcEvent.wd_lifecheck ∉ lc_prologue w := by
  unfold lc_prologue
  split <;> simp

theorem lc_inv_init (H : Header) : LcInv H LcState.init := by
  refine ⟨?_, ?_, ?_, ?_⟩
  · intro pre post h
    cases pre <;> cases h
  · intro _
    exact ⟨by simp [LcState.init], rfl⟩
  · intro h
    rcases h with h | h | h <;> cases h
  · intro h
    cases h

theorem lc_inv_step (H : Header) (cfg : PoolConfig) (w : Int) (inp : LcInput) (s : LcState)
    (hs : LcInv H s) : LcInv H (lc_step H cfg w inp s) := by
  obtain ⟨pc, polls, iters, es, trace⟩ := s
  obtain ⟨h1, h2, h3, h4⟩ := hs
  cases pc with
  | start =>
    have hn := (h2 (Or.inl rfl)).1
    have hi := (h2 (Or.inl rfl)).2
    simp only [lc_step]
    refine ⟨ready_before_append_of_not_mem _ _ _ h1 (lifecheck_not_mem_prologue w), ?_, ?_, ?_⟩
    · intro _
      refine ⟨?_, hi⟩
      intro hm
      rcases List.mem_append.1 hm with hm | hm
      · exact hn hm
      · exact lifecheck_not_mem_prologue w hm
    · intro h
      rcases h with h | h | h <;> cases h
    · intro h
      cases h
  | waitReady =>
    have hn := (h2 (Or.inr rfl)).1
    have hi := (h2 (Or.inr rfl)).2
    simp only [lc_step]
    by_cases hr : H.WD_OK = inp.ready polls
    · simp only [ne_eq, hr, not_true_eq_false, if_false]
      refine ⟨ready_before_append_of_not_mem _ _ _ h1 (by simp), ?_, ?_, ?_⟩
      · intro h
        rcases h with h | h <;> cases h
      · intro _
        simp only [List.mem_append, List.mem_singleton, LcEvent.is_wd_lifecheck_ready.injEq]
        exact Or.inr hr
      · intro _
        rfl
    · simp only [ne_eq, hr, not_false_eq_true, if_true]
      refine ⟨ready_before_append_of_not_mem _ _ _ h1 (by simp), ?_, ?_, ?_⟩
      · intro _
        refine ⟨?_, hi⟩
        intro hm
        rcases List.mem_append.1 hm with hm | hm
        · exact hn hm
        · simp at hm
      · intro h
        rcases h with h | h | h <;> cases h
      · intro h
        cases h
  | recover =>
    have hm := h3 (Or.inr (Or.inl rfl))
    simp only [lc_step]
    refine ⟨ready_before_append_of_mem _ _ _ h1 hm, ?_, ?_, ?_⟩
    · intro h
      rcases h with h | h <;> cases h
    · intro _
      exact List.mem_append_left _ hm
    · intro _
      rfl
  | loop =>
    have hm := h3 (Or.inl rfl)
    have he : es = true := h4 rfl
    subst he
    simp only [lc_step]
    cases inp.iter iters with
    | returned =>
      simp only [List.append_assoc]
      refine ⟨ready_before_append_of_mem _ _ _ h1 hm, ?_, ?_, ?_⟩
      · intro h
        rcases h with h | h <;> cases h
      · intro _
        exact List.mem_append_left _ hm
      · intro _
        rfl
    | error =>
      simp only [if_true]
      refine ⟨ready_before_append_of_mem _ _ _ h1 hm, ?_, ?_, ?_⟩
      · intro h
        rcases h with h | h <;> cases h
      · intro _
        exact List.mem_append_left _ hm
      · intro h
        cases h
    | terminated =>
      refine ⟨ready_before_append_of_mem _ _ _ h1 hm, ?_, ?_, ?_⟩
      · intro h
        rcases h with h | h <;> cases h
      · intro _
        exact List.mem_append_left _ hm
      · intro h
        cases h
  | exited =>
    simp only [lc_step]
    exact ⟨h1, h2, h3, h4⟩

theorem lc_inv_run (H : Header) (cfg : PoolConfig) (w : Int) (inp : LcInput) (n : Nat) :
    LcInv H (lc_run H cfg w inp n) := by
  induction n with
  | zero => exact lc_inv_init H
  | succ k ih =>
    unfold lc_run
    rw [lc_run_from_succ]
    exact lc_inv_step H cfg w inp _ ih

/-- While the readiness predicate answers something else than `WD_OK`, each
step of the wait polls once and sleeps once. -/
theorem lc_wait_steps (H : Header) (cfg : PoolConfig) (w : Int) (inp : LcInput) (k : Nat)
    (s : LcState) (hpc : s.pc = .waitReady)
    (hnot : ∀ j, j < k → inp.ready (s.polls + j) ≠ H.WD_OK) :
    lc_run_from H cfg w inp k s
      = { s with
          polls := s.polls + k,
          trace := s.trace ++ (List.range' s.polls k).flatMap (fun j =>
            [LcEvent.is_wd_lifecheck_ready (inp.ready j),
             LcEvent.sleep (int_mul cfg.wd_interval 10)]) } := by
  induction k generalizing s with
  | zero =>
    obtain ⟨pc, polls, iters, es, trace⟩ := s
    simp [lc_run_from]
  | succ c ih =>
    obtain ⟨pc, polls, iters, es, trace⟩ := s
    simp only at hpc
    subst hpc
    have h0 : H.WD_OK ≠ inp.ready polls := by
      have := hnot 0 (by omega)
      simp only [Nat.add_zero] at this
      exact fun e => this e.symm
    have hstep : lc_step H cfg w inp ⟨.waitReady, polls, iters, es, trace⟩
        = ⟨.waitReady, polls + 1, iters, es,
            trace ++ [LcEvent.is_wd_lifecheck_ready (inp.ready polls),
              LcEvent.sleep (int_mul cfg.wd_interval 10)]⟩ := by
      simp only [lc_step, ne_eq, h0, not_false_eq_true, if_true]
    show lc_run_from H cfg w inp c (lc_step H cfg w inp _) = _
    rw [hstep, ih _ rfl (by
      intro j hj
      have := hnot (j + 1) (by omega)
      simp only at this ⊢
      rw [show polls + 1 + j = polls + (j + 1) by omega]
      exact this)]
    simp only [List.range'_succ, List.flatMap_cons, List.append_assoc, LcState.mk.injEq,
      true_and, and_true]
    omega

theorem int_mul_of_in_range (a b : Int) (h1 : -(2 : Int) ^ 31 ≤ a * b)
    (h2 : a * b < (2 : Int) ^ 31) : int_mul a b = a * b := by
  unfold int_mul
  generalize a * b = p at h1 h2
  norm_num at h1 h2 ⊢
  omega

/-- C9: in the lifecheck process, for every sequence of answers of the
readiness predicate, (1) at every point of the run each call of `wd_lifecheck`
in the trace is preceded by a poll that answered `WD_OK`; (2) if the first `k`
answers differ from `WD_OK`, then after the prologue and `k` polls the process
is still waiting, has made exactly `k` polls each followed by one sleep of
`wd_interval * 10`, and has run no lifecheck iteration; (3) the slept value is
`10 * wd_interval` whenever that product is representable as an `int`. -/
theorem lifecheck_readiness_gate (H : Header) (cfg : PoolConfig) (fork_wait_time : Int)
    (inp : LcInput) :
    (∀ n, ReadyBeforeLifecheck H.WD_OK (lc_run H cfg fork_wait_time inp n).trace) ∧
    (∀ k, (∀ j, j < k → inp.ready j ≠ H.WD_OK) →
      (lc_run H cfg fork_wait_time inp (k + 1)).pc = .waitReady ∧
      (lc_run H cfg fork_wait_time inp (k + 1)).trace
        = lc_prologue fork_wait_time ++ (List.range k).flatMap (fun j =>
            [LcEvent.is_wd_lifecheck_ready (inp.ready j),
             LcEvent.sleep (int_mul cfg.wd_interval 10)]) ∧
      (lc_run H cfg fork_wait_time inp (k + 1)).polls = k ∧
      (lc_run H cfg fork_wait_time inp (k + 1)).iters = 0 ∧
      LcEvent.wd_lifecheck ∉ (lc_run H cfg fork_wait_time inp (k + 1)).trace) ∧
    (-(2 : Int) ^ 31 ≤ cfg.wd_interval * 10 → cfg.wd_interval * 10 < (2 : Int) ^ 31 →
      int_mul cfg.wd_interval 10 = 10 * cfg.wd_interval) := by
  refine ⟨fun n => (lc_inv_run H cfg fork_wait_time inp n).1, ?_, ?_⟩
  · intro k hk
    have hrun : lc_run H cfg fork_wait_time inp (k + 1)
        = ⟨.waitReady, k, 0, false,
            lc_prologue fork_wait_time ++ (List.range k).flatMap (fun j =>
              [LcEvent.is_wd_lifecheck_ready (inp.ready j),
               LcEvent.sleep (int_mul cfg.wd_interval 10)])⟩ := by
      unfold lc_run
      show lc_run_from H cfg fork_wait_time inp k
        (lc_step H cfg fork_wait_time inp LcState.init) = _
      have hstep : lc_step H cfg fork_wait_time inp LcState.init
          = ⟨.waitReady, 0, 0, false, lc_prologue fork_wait_time⟩ := by
        simp [lc_step, LcState.init]
      rw [hstep, lc_wait_steps H cfg fork_wait_time inp k _ rfl (by
        intro j hj
        simp only [Nat.zero_add]
        exact hk j hj)]
      simp [List.range_eq_range']
    have hinv := (lc_inv_run H cfg fork_wait_time inp (k + 1)).2.1
    rw [hrun] at hinv ⊢
    exact ⟨rfl, rfl, rfl, rfl, (hinv (Or.inr rfl)).1⟩
  · intro h1 h2
    rw [int_mul_of_in_range _ _ h1 h2, mul_comm]

/-- Instance of C9: two not-ready answers with `wd_interval = 10` give two
sleeps of 100 after the prologue and no lifecheck iteration. -/
theorem lifecheck_readiness_gate_witness :
    (lc_run exHeader (exConfig 1) 0 exLcInput 3).pc = .waitReady ∧
    (lc_run exHeader (exConfig 1) 0 exLcInput 3).trace
      = lc_prologue 0 ++ [LcEvent.is_wd_lifecheck_ready 1, LcEvent.sleep 100,
          LcEvent.is_wd_lifecheck_ready 1, LcEvent.sleep 100] ∧
    LcEvent.wd_lifecheck ∉ (lc_run exHeader (exConfig 1) 0 exLcInput 3).trace ∧
    int_mul (exConfig 1).wd_interval 10 = 100 := by
  obtain ⟨_, h2, h3⟩ := lifecheck_readiness_gate exHeader (exConfig 1) 0 exLcInput
  obtain ⟨a, b, _, _, e⟩ := h2 2 (by
    intro j hj
    have : j = 0 ∨ j = 1 := by omega
    rcases this with h | h <;> subst h <;> decide)
  exact ⟨a, b, e, h3 (by decide) (by decide)⟩

/-- C10: from any point of a run at which the lifecheck process is at the top
of its loop, if no later call of `wd_lifecheck` ends the process, then (1) the
process is for ever at the top of the loop or in the recovery block: it never
exits and never waits for readiness again, and makes no further poll; (2) an
iteration that returns is followed by a sleep of `wd_interval` and leaves the
process at the top of the loop; (3) an iteration that raises `ERROR` is
followed by the recovery block (error report, error state flushed, sleep of
`wd_heartbeat_keepalive`) and leaves the process at the top of the loop. -/
theorem lifecheck_loop_never_exits (H : Header) (cfg : PoolConfig) (fork_wait_time : Int)
    (inp : LcInput) (n0 : Nat)
    (hrun : (lc_run H cfg fork_wait_time inp n0).pc = .loop)
    (hout : ∀ j, (lc_run H cfg fork_wait_time inp n0).iters ≤ j → inp.iter j ≠ .terminated) :
    (∀ n, ((lc_run H cfg fork_wait_time inp (n0 + n)).pc = .loop ∨
           (lc_run H cfg fork_wait_time inp (n0 + n)).pc = .recover) ∧
          (lc_run H cfg fork_wait_time inp (n0 + n)).polls
            = (lc_run H cfg fork_wait_time inp n0).polls) ∧
    (∀ n, (lc_run H cfg fork_wait_time inp (n0 + n)).pc = .loop →
      inp.iter (lc_run H cfg fork_wait_time inp (n0 + n)).iters = .returned →
      (lc_run H cfg fork_wait_time inp (n0 + n + 1)).pc = .loop ∧
      (lc_run H cfg fork_wait_time inp (n0 + n + 1)).iters
        = (lc_run H cfg fork_wait_time inp (n0 + n)).iters + 1 ∧
      (lc_run H cfg fork_wait_time inp (n0 + n + 1)).trace
        = (lc_run H cfg fork_wait_time inp (n0 + n)).trace
            ++ lc_iter_events ++ [LcEvent.sleep cfg.wd_interval]) ∧
    (∀ n, (lc_run H cfg fork_wait_time inp (n0 + n)).pc = .loop →
      inp.iter (lc_run H cfg fork_wait_time inp (n0 + n)).iters = .error →
      (lc_run H cfg fork_wait_time inp (n0 + n + 2)).pc = .loop ∧
      (lc_run H cfg fork_wait_time inp (n0 + n + 2)).iters
        = (lc_run H cfg fork_wait_time inp (n0 + n)).iters + 1 ∧
      (lc_run H cfg fork_wait_time inp (n0 + n + 2)).trace
        = (lc_run H cfg fork_wait_time inp (n0 + n)).trace
            ++ lc_iter_events ++ lc_recover_events cfg) := by
  have hsucc : ∀ m, lc_run H cfg fork_wait_time inp (m + 1)
      = lc_step H cfg fork_wait_time inp (lc_run H cfg fork_wait_time inp m) := by
    intro m
    unfold lc_run
    exact lc_run_from_succ _ _ _ _ _ _
  have key : ∀ n, ((lc_run H cfg fork_wait_time inp (n0 + n)).pc = .loop ∨
        (lc_run H cfg fork_wait_time inp (n0 + n)).pc = .recover) ∧
      (lc_run H cfg fork_wait_time inp (n0 + n)).polls
        = (lc_run H cfg fork_wait_time inp n0).polls ∧
      (lc_run H cfg fork_wait_time inp n0).iters
        ≤ (lc_run H cfg fork_wait_time inp (n0 + n)).iters := by
    intro n
    induction n with
    | zero => exact ⟨Or.inl hrun, rfl, le_refl _⟩
    | succ k ih =>
      have hinv := (lc_inv_run H cfg fork_wait_time inp (n0 + k)).2.2.2
      rw [← Nat.add_assoc, hsucc]
      generalize lc_run H cfg fork_wait_time inp (n0 + k) = s at ih hinv
      obtain ⟨pc, polls, iters, es, trace⟩ := s
      obtain ⟨hpc, hp, hi⟩ := ih
      simp only at hpc hp hi hinv
      rcases hpc with hpc | hpc
      · subst hpc
        have he : es = true := hinv rfl
        subst he
        have hne := hout iters hi
        cases hit : inp.iter iters with
        | returned =>
          have hstep : lc_step H cfg fork_wait_time inp ⟨.loop, polls, iters, true, trace⟩
              = ⟨.loop, polls, iters + 1, true,
                  trace ++ lc_iter_events ++ [LcEvent.sleep cfg.wd_interval]⟩ := by
            simp only [lc_step, hit]
          rw [hstep]
          exact ⟨Or.inl rfl, hp, Nat.le_succ_of_le hi⟩
        | error =>
          have hstep : lc_step H cfg fork_wait_time inp ⟨.loop, polls, iters, true, trace⟩
              = ⟨.recover, polls, iters + 1, true, trace ++ lc_iter_events⟩ := by
            simp only [lc_step, hit, if_true]
          rw [hstep]
          exact ⟨Or.inr rfl, hp, Nat.le_succ_of_le hi⟩
        | terminated => exact absurd hit hne
      · subst hpc
        have hstep : lc_step H cfg fork_wait_time inp ⟨.recover, polls, iters, es, trace⟩
            = ⟨.loop, polls, iters, true, trace ++ lc_recover_events cfg⟩ := by
          simp only [lc_step]
        rw [hstep]
        exact ⟨Or.inl rfl, hp, hi⟩
  refine ⟨fun n => ⟨(key n).1, (key n).2.1⟩, ?_, ?_⟩
  · intro n hpc hit
    rw [hsucc]
    generalize lc_run H cfg fork_wait_time inp (n0 + n) = s at hpc hit
    obtain ⟨pc, polls, iters, es, trace⟩ := s
    simp only at hpc hit
    subst hpc
    have hstep : lc_step H cfg fork_wait_time inp ⟨.loop, polls, iters, es, trace⟩
        = ⟨.loop, polls, iters + 1, es,
            trace ++ lc_iter_events ++ [LcEvent.sleep cfg.wd_interval]⟩ := by
      simp only [lc_step, hit]
    rw [hstep]
    exact ⟨rfl, rfl, rfl⟩
  · intro n hpc hit
    have hinv := (lc_inv_run H cfg fork_wait_time inp (n0 + n)).2.2.2
    rw [show n0 + n + 2 = (n0 + n + 1) + 1 from rfl, hsucc, hsucc]
    generalize lc_run H cfg fork_wait_time inp (n0 + n) = s at hpc hit hinv
    obtain ⟨pc, polls, iters, es, trace⟩ := s
    simp only at hpc hit hinv
    subst hpc
    have he : es = true := hinv rfl
    subst he
    have hstep : lc_step H cfg fork_wait_time inp ⟨.loop, polls, iters, true, trace⟩
        = ⟨.recover, polls, iters + 1, true, trace ++ lc_iter_events⟩ := by
      simp only [lc_step, hit, if_true]
    have hstep2 : lc_step H cfg fork_wait_time inp
        ⟨.recover, polls, iters + 1, true, trace ++ lc_iter_events⟩
        = ⟨.loop, polls, iters + 1, true,
            trace ++ lc_iter_events ++ lc_recover_events cfg⟩ := by
      simp only [lc_step]
    rw [hstep, hstep2]
    exact ⟨rfl, rfl, rfl⟩

/-- Instance of C10 on the run of `exLcInput`: the loop is entered after four
steps; the first iteration returns, the second raises `ERROR` and is followed
by the recovery block with a sleep of 2. -/
theorem lifecheck_loop_never_exits_witness :
    (lc_run exHeader (exConfig 1) 0 exLcInput 4).pc = .loop ∧
    (lc_run exHeader (exConfig 1) 0 exLcInput 5).trace
      = (lc_run exHeader (exConfig 1) 0 exLcInput 4).trace
          ++ lc_iter_events ++ [LcEvent.sleep 10] ∧
    (lc_run exHeader (exConfig 1) 0 exLcInput 7).pc = .loop ∧
    (lc_run exHeader (exConfig 1) 0 exLcInput 7).trace
      = (lc_run exHeader (exConfig 1) 0 exLcInput 5).trace
          ++ lc_iter_events
          ++ [LcEvent.EmitErrorReport, LcEvent.MemoryContextSwitchTo .TopMemoryContext,
              LcEvent.FlushErrorState, LcEvent.sleep 2] := by
  have h := lifecheck_loop_never_exits exHeader (exConfig 1) 0 exLcInput 4 (by decide)
    (by
      intro j _
      show (if j = 1 then IterOutcome.error else IterOutcome.returned) ≠ .terminated
      split <;> decide)
  obtain ⟨_, h2, h3⟩ := h
  have a := h2 0 (by decide) (by decide)
  have b := h3 1 (by decide) (by decide)
  exact ⟨by decide, a.2.2, b.1, b.2.2⟩

end Watchdog
